import Mathlib

/-!
# PIC18 USB bootloader: the control-channel protocol engine of `api.c`

A shallow embedding of `api.c` (frame classification in `api_prepare`, the
command-stream parser `api_parse` and its short and long command handlers),
followed by theorems about it.

Conventions of the embedding.

* A `uint8_t` is a `Nat` below 256; every read of a buffer reduces modulo 256
  and every 8-bit result of an addition is reduced modulo 256 where the C code
  stores it into a `uint8_t`.
* The inbound frame `uint8_t *inBuffer` is a function from index to byte.
* `uint8_t *data` of the long-command handlers is an address into the data
  memory `ram` (address to byte); `data[k]` is `ram (data + k)`.
* The collaborators (`fat_*`, `i2c_eeprom_writeByte`, `system_delay_ms`,
  `jump_to_zero`, `jump_to_main_program`) are not part of `api.c`; a call to one
  of them is recorded, with its arguments, in the `calls` log of the `World`,
  in program order, and is taken to return.
* The header constants (`api.h`, `os.h`, ...) are declared outside `api.c`;
  they are the fields of `ApiConsts`.
* The outbound frame `uint8_t *outBuffer` is an object of its own, apart from
  the inbound frame; the response builders return the frame they have written
  and the list of file-table queries they have made.
-/

namespace Api

/-- The named constants that `api.c` takes from its headers. -/
structure ApiConsts where
  COMMAND_STOP_PARSING : Nat
  COMMAND_REBOT : Nat
  COMMAND_REBOT_BOOTLOADER_MODE : Nat
  COMMAND_REBOT_NORMAL_MODE : Nat
  COMMAND_JUMP_TO_MAIN_PROGRAM : Nat
  COMMAND_ENCODER_CCW : Nat
  COMMAND_ENCODER_CW : Nat
  COMMAND_ENCODER_PUSH : Nat
  COMMAND_FILE_TRUNCATE : Nat
  COMMAND_FILE_DELETE : Nat
  COMMAND_FILE_CREATE : Nat
  COMMAND_FILE_RENAME : Nat
  COMMAND_FILE_APPEND : Nat
  COMMAND_FILE_MODIFY : Nat
  DATAREQUEST_GET_STATUS : Nat
  DATAREQUEST_GET_DISPLAY_1 : Nat
  DATAREQUEST_GET_DISPLAY_2 : Nat
  DATAREQUEST_GET_BOOTLOADER_DETAILS : Nat
  DATAREQUEST_GET_CONFIGURATION : Nat
  DATAREQUEST_GET_ECHO : Nat
  DATAREQUEST_GET_FILE_DETAILS : Nat
  DATAREQUEST_FIND_FILE : Nat
  DATAREQUEST_READ_FILE : Nat
  BOOTLOADER_SIGNATURE : Nat
  FIRMWARE_VERSION_MAJOR : Nat
  FIRMWARE_VERSION_MINOR : Nat
  FIRMWARE_VERSION_FIX : Nat
  EEPROM_BOOTLOADER_BYTE_ADDRESS : Nat
  BOOTLOADER_BYTE_FORCE_BOOTLOADER_MODE : Nat
  BOOTLOADER_BYTE_FORCE_NORMAL_MODE : Nat

/-- Modelled from the spec: the header `api.h` is absent, so the values of the
constants are taken from the comments of `api.c` (long commands `0x50` to
`0x55`), from the spec (encoder CW `0x24`, stop marker `0xFF`) and, where
neither names a value, chosen distinct within their range. Used only to
evaluate the embedding on concrete frames. -/
def apiH : ApiConsts where
  COMMAND_STOP_PARSING := 0xFF
  COMMAND_REBOT := 0x20
  COMMAND_REBOT_BOOTLOADER_MODE := 0x21
  COMMAND_REBOT_NORMAL_MODE := 0x22
  COMMAND_JUMP_TO_MAIN_PROGRAM := 0x23
  COMMAND_ENCODER_CCW := 0x25
  COMMAND_ENCODER_CW := 0x24
  COMMAND_ENCODER_PUSH := 0x26
  COMMAND_FILE_TRUNCATE := 0x50
  COMMAND_FILE_DELETE := 0x51
  COMMAND_FILE_CREATE := 0x52
  COMMAND_FILE_RENAME := 0x53
  COMMAND_FILE_APPEND := 0x54
  COMMAND_FILE_MODIFY := 0x55
  DATAREQUEST_GET_STATUS := 0x10
  DATAREQUEST_GET_DISPLAY_1 := 0x11
  DATAREQUEST_GET_DISPLAY_2 := 0x12
  DATAREQUEST_GET_BOOTLOADER_DETAILS := 0x13
  DATAREQUEST_GET_CONFIGURATION := 0x14
  DATAREQUEST_GET_ECHO := 0x15
  DATAREQUEST_GET_FILE_DETAILS := 0x80
  DATAREQUEST_FIND_FILE := 0x81
  DATAREQUEST_READ_FILE := 0x82
  BOOTLOADER_SIGNATURE := 0x1234
  FIRMWARE_VERSION_MAJOR := 1
  FIRMWARE_VERSION_MINOR := 0
  FIRMWARE_VERSION_FIX := 0
  EEPROM_BOOTLOADER_BYTE_ADDRESS := 0
  BOOTLOADER_BYTE_FORCE_BOOTLOADER_MODE := 1
  BOOTLOADER_BYTE_FORCE_NORMAL_MODE := 2

/-- A byte buffer or the data memory: index (or address) to content. -/
abbrev Bytes := Nat → Nat

/-- Read of one `uint8_t` at index `i`. -/
def rd (b : Bytes) (i : Nat) : Nat := b i % 256

/-- Store of one `uint8_t` (the value is cut to eight bits) at index `i`. -/
def wr (b : Bytes) (i v : Nat) : Bytes := fun j => if j = i then v % 256 else b j

/-- A call of `api.c` into a collaborator, with the arguments it passes.
Pointer arguments are recorded as addresses. -/
inductive Call where
  | jump_to_zero
  | jump_to_main_program
  | i2c_eeprom_writeByte (address value : Nat)
  | system_delay_ms (ms : Nat)
  | fat_delete_file (fileNumber : Nat)
  | fat_create_file (name ext size : Nat)
  | fat_rename_file (fileNumber name ext : Nat)
  | fat_append_to_file (fileNumber count data : Nat)
  deriving DecidableEq, Repr

/-- The global `os` of `os.h`, with the six fields `api.c` uses. -/
structure Os where
  encoderCount : Nat
  buttonCount : Nat
  timeSlot : Nat
  done : Nat
  bootloader_mode : Nat
  display_mode : Nat
  deriving DecidableEq, Repr

/-- The global `communicationSettings`, with the seven fields `api.c` uses. -/
structure CommunicationSettings where
  spiMode : Nat
  spiFrequency : Nat
  spiPolarity : Nat
  i2cMode : Nat
  i2cFrequency : Nat
  i2cSlaveModeSlaveAddress : Nat
  i2cMasterModeSlaveAddress : Nat
  deriving DecidableEq, Repr

/-- The state the command handlers act on: the globals `os` and
`communicationSettings`, and the log of collaborator calls (the file table,
the EEPROM and the reset logic are reached through these calls only). -/
structure World where
  os : Os
  communicationSettings : CommunicationSettings
  calls : List Call
  deriving DecidableEq, Repr

/-- Append a collaborator call to the log. -/
def World.call (w : World) (k : Call) : World := { w with calls := w.calls ++ [k] }

/-- `static void _parse_command_short(uint8_t cmd)`. The counters of `os` are
kept as 8-bit values (they are packed into one byte each of the status
response). -/
def _parse_command_short (c : ApiConsts) (cmd : Nat) (w : World) : World :=
  if cmd = c.COMMAND_REBOT then
    w.call .jump_to_zero
  else if cmd = c.COMMAND_REBOT_BOOTLOADER_MODE then
    ((w.call (.i2c_eeprom_writeByte c.EEPROM_BOOTLOADER_BYTE_ADDRESS
        c.BOOTLOADER_BYTE_FORCE_BOOTLOADER_MODE)).call (.system_delay_ms 10)).call .jump_to_zero
  else if cmd = c.COMMAND_REBOT_NORMAL_MODE then
    ((w.call (.i2c_eeprom_writeByte c.EEPROM_BOOTLOADER_BYTE_ADDRESS
        c.BOOTLOADER_BYTE_FORCE_NORMAL_MODE)).call (.system_delay_ms 10)).call .jump_to_zero
  else if cmd = c.COMMAND_JUMP_TO_MAIN_PROGRAM then
    w.call .jump_to_main_program
  else if cmd = c.COMMAND_ENCODER_CCW then
    { w with os := { w.os with encoderCount := (w.os.encoderCount + 255) % 256 } }
  else if cmd = c.COMMAND_ENCODER_CW then
    { w with os := { w.os with encoderCount := (w.os.encoderCount + 1) % 256 } }
  else if cmd = c.COMMAND_ENCODER_PUSH then
    { w with os := { w.os with buttonCount := (w.os.buttonCount + 1) % 256 } }
  else
    w

/-- `static uint8_t _parse_file_truncate(uint8_t *data)`. -/
def _parse_file_truncate (_ram : Bytes) (_data : Nat) (w : World) : Nat × World :=
  (65, w)

/-- `static uint8_t _parse_file_delete(uint8_t *data)`. -/
def _parse_file_delete (c : ApiConsts) (ram : Bytes) (data : Nat) (w : World) : Nat × World :=
  if rd ram data ≠ c.COMMAND_FILE_DELETE ∨ rd ram (data + 2) ≠ 0x66 ∨ rd ram (data + 3) ≠ 0xA0 then
    (4, w)
  else
    (4, w.call (.fat_delete_file (rd ram (data + 1))))

/-- `static uint8_t _parse_file_create(uint8_t *data)`. -/
def _parse_file_create (c : ApiConsts) (ram : Bytes) (data : Nat) (w : World) : Nat × World :=
  if rd ram data ≠ c.COMMAND_FILE_CREATE ∨ rd ram (data + 12) ≠ 0xBD ∨ rd ram (data + 13) ≠ 0x4F then
    (14, w)
  else
    (14, w.call (.fat_create_file (data + 1) (data + 9) 0))

/-- `static uint8_t _parse_file_rename(uint8_t *data)`. -/
def _parse_file_rename (c : ApiConsts) (ram : Bytes) (data : Nat) (w : World) : Nat × World :=
  if rd ram data ≠ c.COMMAND_FILE_RENAME ∨ rd ram (data + 13) ≠ 0x7E ∨ rd ram (data + 14) ≠ 0x18 then
    (15, w)
  else
    (15, w.call (.fat_rename_file (rd ram (data + 1)) (data + 2) (data + 10)))

/-- `static uint8_t _parse_file_append(uint8_t *data)`. The value returned on
the accepting path, `data[2] + 5`, is cut to the 8-bit return type. -/
def _parse_file_append (c : ApiConsts) (ram : Bytes) (data : Nat) (w : World) : Nat × World :=
  if rd ram data ≠ c.COMMAND_FILE_APPEND ∨ rd ram (data + 3) ≠ 0xFE ∨ rd ram (data + 4) ≠ 0x4B then
    (15, w)
  else
    ((rd ram (data + 2) + 5) % 256,
      w.call (.fat_append_to_file (rd ram (data + 1)) (rd ram (data + 2)) (data + 5)))

/-- `static uint8_t _parse_file_modify(uint8_t *data)`. -/
def _parse_file_modify (_ram : Bytes) (_data : Nat) (w : World) : Nat × World :=
  (65, w)

/-- `static uint8_t _parse_command_long(uint8_t *data)`: `length` starts at 65
and is replaced by the result of the handler the `switch` on `data[0]` selects. -/
def _parse_command_long (c : ApiConsts) (ram : Bytes) (data : Nat) (w : World) : Nat × World :=
  if rd ram data = c.COMMAND_FILE_TRUNCATE then _parse_file_truncate ram data w
  else if rd ram data = c.COMMAND_FILE_DELETE then _parse_file_delete c ram data w
  else if rd ram data = c.COMMAND_FILE_CREATE then _parse_file_create c ram data w
  else if rd ram data = c.COMMAND_FILE_RENAME then _parse_file_rename c ram data w
  else if rd ram data = c.COMMAND_FILE_APPEND then _parse_file_append c ram data w
  else if rd ram data = c.COMMAND_FILE_MODIFY then _parse_file_modify ram data w
  else (65, w)

/-- `static uint8_t _parse_settings_spi_mode(uint8_t *data)`. -/
def _parse_settings_spi_mode (_ram : Bytes) (_data : Nat) (w : World) : Nat × World :=
  (4, w)

/-- `static uint8_t _parse_settings_spi_frequency(uint8_t *data)`. -/
def _parse_settings_spi_frequency (_ram : Bytes) (_data : Nat) (w : World) : Nat × World :=
  (4, w)

/-- `static uint8_t _parse_settings_spi_polarity(uint8_t *data)`. -/
def _parse_settings_spi_polarity (_ram : Bytes) (_data : Nat) (w : World) : Nat × World :=
  (4, w)

/-- `static uint8_t _parse_settings_i2c_mode(uint8_t *data)`. -/
def _parse_settings_i2c_mode (_ram : Bytes) (_data : Nat) (w : World) : Nat × World :=
  (4, w)

/-- `static uint8_t _parse_settings_i2c_frequency(uint8_t *data)`. -/
def _parse_settings_i2c_frequency (_ram : Bytes) (_data : Nat) (w : World) : Nat × World :=
  (4, w)

/-- `static uint8_t _parse_settings_i2c_slaveModeSlaveAddress(uint8_t *data)`. -/
def _parse_settings_i2c_slaveModeSlaveAddress (_ram : Bytes) (_data : Nat) (w : World) :
    Nat × World :=
  (4, w)

/-- `static uint8_t _parse_settings_i2c_masterModeSlaveAddress(uint8_t *data)`. -/
def _parse_settings_i2c_masterModeSlaveAddress (_ram : Bytes) (_data : Nat) (w : World) :
    Nat × World :=
  (4, w)

/-- Outcome of one pass through the body of the `while` loop of `api_parse`:
the function returns, or the loop goes on with a new cursor. -/
inductive Step where
  | ret (w : World)
  | cont (idx : Nat) (w : World)
  deriving DecidableEq, Repr

/-- One evaluation of the loop condition and body of `api_parse` at cursor
`idx`. In the `0x50` case the source reads
`idx += _parse_command_long(inBuffer[idx]);`: the argument is the byte
`inBuffer[idx]` itself, converted to the pointer parameter `uint8_t *data`,
not the address `&inBuffer[idx]`; the handler therefore reads the data memory
at the address given by the value of that byte. `idx` is a `uint8_t`, so both
increments are reduced modulo 256. -/
def api_parse_iteration (c : ApiConsts) (ram inBuffer : Bytes) (receivedDataLength : Nat)
    (idx : Nat) (w : World) : Step :=
  if idx < receivedDataLength then
    if rd inBuffer idx = c.COMMAND_STOP_PARSING then .ret w
    else if rd inBuffer idx &&& 0xF0 = 0x20 then
      .cont ((idx + 1) % 256) (_parse_command_short c (rd inBuffer idx) w)
    else if rd inBuffer idx &&& 0xF0 = 0x30 then
      .cont ((idx + 1) % 256) (_parse_command_short c (rd inBuffer idx) w)
    else if rd inBuffer idx &&& 0xF0 = 0x50 then
      .cont ((idx + (_parse_command_long c ram (rd inBuffer idx) w).1) % 256)
        (_parse_command_long c ram (rd inBuffer idx) w).2
    else .ret w
  else .ret w

/-- The `while` loop of `api_parse`, bounded by `fuel` passes: `none` when the
loop is still running after `fuel` passes, otherwise the cursor at which the
function returned and the final state. -/
def api_parse_loop (c : ApiConsts) (ram inBuffer : Bytes) (receivedDataLength : Nat) :
    Nat → Nat → World → Option (Nat × World)
  | 0, _, _ => none
  | fuel + 1, idx, w =>
    match api_parse_iteration c ram inBuffer receivedDataLength idx w with
    | .ret w1 => some (idx, w1)
    | .cont idx1 w1 => api_parse_loop c ram inBuffer receivedDataLength fuel idx1 w1

/-- `void api_parse(uint8_t *inBuffer, uint8_t receivedDataLength)`: the final
state, or `none` when `fuel` passes of the loop do not reach a `return`. -/
def api_parse (c : ApiConsts) (ram inBuffer : Bytes) (receivedDataLength : Nat)
    (fuel : Nat) (w : World) : Option World :=
  if rd inBuffer 0 > 0x7F then some w
  else (api_parse_loop c ram inBuffer receivedDataLength fuel 1 w).map Prod.snd

/-- The state of the loop of `api_parse` after `k` passes from cursor `idx`:
`.cont` with the cursor and the state when all `k` passes went on, `.ret`
when one of them returned. -/
def api_parse_passes (c : ApiConsts) (ram inBuffer : Bytes) (receivedDataLength : Nat) :
    Nat → Nat → World → Step
  | 0, idx, w => .cont idx w
  | k + 1, idx, w =>
    match api_parse_iteration c ram inBuffer receivedDataLength idx w with
    | .ret w1 => .ret w1
    | .cont idx1 w1 => api_parse_passes c ram inBuffer receivedDataLength k idx1 w1

/-- Store of the bytes `vs` at consecutive indices from `i` on. -/
def wrList (b : Bytes) (i : Nat) : List Nat → Bytes
  | [] => b
  | v :: vs => wrList (wr b i v) (i + 1) vs

/-- The collaborators the response builders read: each field is the value the
C function of the same name returns in the device state at hand. The two
collaborators that fill a buffer they are handed
(`fat_get_file_information` and `fat_read_from_file`) return their status
together with the bytes they have stored from the start of that buffer on.
`shiftRight32` is the value the platform gives to `buffer_large>>32`, a shift
of a 32-bit value by its full width, which C leaves undefined. -/
structure Collab where
  flash_is_busy : Nat
  ui_get_status : Nat
  display_get_character : Nat → Nat → Nat
  bootloader_get_file_size : Nat
  bootloader_get_entries : Nat
  bootloader_get_total_entries : Nat
  bootloader_get_error : Nat
  bootloader_get_flashPagesWritten : Nat
  bootloader_get_rec_dataLength : Nat
  bootloader_get_rec_address : Nat
  bootloader_get_rec_recordType : Nat
  bootloader_get_rec_checksum : Nat
  bootloader_get_rec_checksumCheck : Nat
  bootloader_get_rec_data : Nat → Nat
  fat_get_file_information : Nat → Nat × List Nat
  fat_find_file : Bytes → Bytes → Nat
  fat_get_file_size : Nat → Nat
  fat_read_from_file : Nat → Nat → Nat → Nat × List Nat
  shiftRight32 : Nat → Nat

/-- A query of a response builder to the file table, with its scalar
arguments; for `fat_find_file` the two indices into the inbound frame at which
the name and the extension it is handed start. -/
inductive Query where
  | fat_get_file_information (fileNumber : Nat)
  | fat_find_file (nameIndex extIndex : Nat)
  | fat_get_file_size (fileNumber : Nat)
  | fat_read_from_file (fileNumber start dataLength : Nat)
  deriving DecidableEq, Repr

/-- `static void _fill_buffer_get_status(uint8_t *outBuffer)`. -/
def _fill_buffer_get_status (c : ApiConsts) (d : Collab) (w : World) (outBuffer : Bytes) : Bytes :=
  let o := wr outBuffer 0 c.DATAREQUEST_GET_STATUS
  let o := wr o 1 (c.BOOTLOADER_SIGNATURE >>> 8)
  let o := wr o 2 c.BOOTLOADER_SIGNATURE
  let o := wr o 3 d.flash_is_busy
  let o := wr o 4 c.FIRMWARE_VERSION_MAJOR
  let o := wr o 5 c.FIRMWARE_VERSION_MINOR
  let o := wr o 6 c.FIRMWARE_VERSION_FIX
  let o := wr o 7 d.ui_get_status
  let o := wr o 8 w.os.encoderCount
  let o := wr o 9 w.os.buttonCount
  let o := wr o 10 w.os.timeSlot
  let o := wr o 11 w.os.done
  let o := wr o 12 w.os.bootloader_mode
  wr o 13 w.os.display_mode

/-- The inner `for` loop of `_fill_buffer_get_display`: the 20 characters of
one line, stored from `cntr` on; returns the buffer and the new `cntr`. -/
def _fill_buffer_get_display_line (d : Collab) (line : Nat) (s : Bytes × Nat) : Bytes × Nat :=
  (List.range 20).foldl
    (fun s position => (wr s.1 s.2 (d.display_get_character line position), (s.2 + 1) % 256)) s

/-- `static void _fill_buffer_get_display(uint8_t *outBuffer, uint8_t secondHalf)`. -/
def _fill_buffer_get_display (c : ApiConsts) (d : Collab) (outBuffer : Bytes) (secondHalf : Nat) :
    Bytes :=
  let o := if secondHalf ≠ 0 then wr outBuffer 0 c.DATAREQUEST_GET_DISPLAY_2
    else wr outBuffer 0 c.DATAREQUEST_GET_DISPLAY_1
  let o := wr o 1 (c.BOOTLOADER_SIGNATURE >>> 8)
  let o := wr o 2 c.BOOTLOADER_SIGNATURE
  let start_line := if secondHalf ≠ 0 then 2 else 0
  ([start_line, start_line + 1].foldl (fun s line => _fill_buffer_get_display_line d line s)
    (o, 3)).1

/-- `static void _fill_buffer_get_bootloader_details(uint8_t *outBuffer)`.
`buffer_large` is a `uint32_t`, `buffer_small` a `uint16_t` and `data_length`
a `uint8_t`, so the values assigned to them are cut to 32, 16 and 8 bits. -/
def _fill_buffer_get_bootloader_details (c : ApiConsts) (d : Collab) (outBuffer : Bytes) : Bytes :=
  let o := wr outBuffer 0 c.DATAREQUEST_GET_BOOTLOADER_DETAILS
  let o := wr o 1 (c.BOOTLOADER_SIGNATURE >>> 8)
  let o := wr o 2 c.BOOTLOADER_SIGNATURE
  let buffer_large := d.bootloader_get_file_size % 2 ^ 32
  let o := wr o 3 buffer_large
  let o := wr o 4 (buffer_large >>> 8)
  let o := wr o 5 (buffer_large >>> 16)
  let o := wr o 6 (d.shiftRight32 buffer_large)
  let buffer_small := d.bootloader_get_entries % 2 ^ 16
  let o := wr o 7 buffer_small
  let o := wr o 8 (buffer_small >>> 8)
  let buffer_small := d.bootloader_get_total_entries % 2 ^ 16
  let o := wr o 9 buffer_small
  let o := wr o 10 (buffer_small >>> 8)
  let o := wr o 11 d.bootloader_get_error
  let buffer_small := d.bootloader_get_flashPagesWritten % 2 ^ 16
  let o := wr o 12 buffer_small
  let o := wr o 13 (buffer_small >>> 8)
  let buffer_small := d.bootloader_get_rec_dataLength % 2 ^ 16
  let o := wr o 14 buffer_small
  let o := wr o 15 (buffer_small >>> 8)
  let buffer_small := d.bootloader_get_rec_address % 2 ^ 16
  let o := wr o 16 buffer_small
  let o := wr o 17 (buffer_small >>> 8)
  let o := wr o 18 d.bootloader_get_rec_recordType
  let o := wr o 19 d.bootloader_get_rec_checksum
  let o := wr o 20 d.bootloader_get_rec_checksumCheck
  let data_length := d.bootloader_get_rec_dataLength % 256
  let data_length := if data_length > 43 then 43 else data_length
  (List.range data_length).foldl (fun o cntr => wr o (21 + cntr) (d.bootloader_get_rec_data cntr)) o

/-- `static void _fill_buffer_get_configuration(uint8_t *outBuffer)`. -/
def _fill_buffer_get_configuration (c : ApiConsts) (w : World) (outBuffer : Bytes) : Bytes :=
  let o := wr outBuffer 0 c.DATAREQUEST_GET_STATUS
  let o := wr o 1 (c.BOOTLOADER_SIGNATURE >>> 8)
  let o := wr o 2 c.BOOTLOADER_SIGNATURE
  let o := wr o 3 w.communicationSettings.spiMode
  let o := wr o 4 w.communicationSettings.spiFrequency
  let o := wr o 5 w.communicationSettings.spiPolarity
  let o := wr o 6 w.communicationSettings.i2cMode
  let o := wr o 7 w.communicationSettings.i2cFrequency
  let o := wr o 8 w.communicationSettings.i2cSlaveModeSlaveAddress
  wr o 9 w.communicationSettings.i2cMasterModeSlaveAddress

/-- `static void _fill_buffer_get_file_details(uint8_t *inBuffer, uint8_t *outBuffer)`.
The collaborator stores the file record from `&outBuffer[5]` on, then its
status goes to `outBuffer[4]`. -/
def _fill_buffer_get_file_details (c : ApiConsts) (d : Collab) (inBuffer outBuffer : Bytes) :
    Bytes × List Query :=
  let file_number := rd inBuffer 2
  let o := wr outBuffer 0 c.DATAREQUEST_GET_FILE_DETAILS
  let o := wr o 1 (c.BOOTLOADER_SIGNATURE >>> 8)
  let o := wr o 2 c.BOOTLOADER_SIGNATURE
  let o := wr o 3 file_number
  let r := d.fat_get_file_information file_number
  let o := wrList o 5 r.2
  (wr o 4 r.1, [.fat_get_file_information file_number])

/-- `static void _fill_buffer_find_file(uint8_t *inBuffer, uint8_t *outBuffer)`. -/
def _fill_buffer_find_file (c : ApiConsts) (d : Collab) (inBuffer outBuffer : Bytes) :
    Bytes × List Query :=
  let o := wr outBuffer 0 c.DATAREQUEST_FIND_FILE
  let o := wr o 1 (c.BOOTLOADER_SIGNATURE >>> 8)
  let o := wr o 2 c.BOOTLOADER_SIGNATURE
  let o := wr o 3 (d.fat_find_file (fun k => rd inBuffer (1 + k)) (fun k => rd inBuffer (9 + k)))
  ((List.range 11).foldl (fun o cntr => wr o (cntr + 12) (rd inBuffer (cntr + 1))) o,
    [.fat_find_file 1 9])

/-- `static void _fill_buffer_read_file(uint8_t *inBuffer, uint8_t *outBuffer)`.
`start`, `file_size` and `data_length` are `uint32_t`: the shifts and the
subtraction are taken modulo `2 ^ 32`. The collaborator stores the bytes it
reads from `&outBuffer[10]` on, then its status goes to `outBuffer[9]`. -/
def _fill_buffer_read_file (c : ApiConsts) (d : Collab) (inBuffer outBuffer : Bytes) :
    Bytes × List Query :=
  let o := wr outBuffer 0 c.DATAREQUEST_FIND_FILE
  let o := wr o 1 (c.BOOTLOADER_SIGNATURE >>> 8)
  let o := wr o 2 c.BOOTLOADER_SIGNATURE
  let o := wr o 3 (rd inBuffer 1)
  let o := wr o 4 (rd inBuffer 1)
  let o := wr o 5 (rd inBuffer 2)
  let o := wr o 6 (rd inBuffer 3)
  let o := wr o 7 (rd inBuffer 4)
  let start := rd inBuffer 4
  let start := (start <<< 8) % 2 ^ 32
  let start := start ||| rd inBuffer 3
  let start := (start <<< 8) % 2 ^ 32
  let start := start ||| rd inBuffer 2
  let start := (start <<< 8) % 2 ^ 32
  let start := start ||| rd inBuffer 1
  let file_size := d.fat_get_file_size (rd inBuffer 1) % 2 ^ 32
  let data_length := (file_size + 2 ^ 32 - start) % 2 ^ 32
  let data_length := if data_length > 54 then 54 else data_length
  let o := wr o 8 data_length
  let r := d.fat_read_from_file (rd inBuffer 1) start data_length
  let o := wrList o 10 r.2
  (wr o 9 r.1,
    [.fat_get_file_size (rd inBuffer 1), .fat_read_from_file (rd inBuffer 1) start data_length])

/-- `memcpy(outBuffer, inBuffer, 64)`. -/
def memcpy64 (outBuffer inBuffer : Bytes) : Bytes :=
  fun j => if j < 64 then rd inBuffer j else outBuffer j

/-- `void api_prepare(uint8_t *inBuffer, uint8_t *outBuffer)`: the outbound
frame after the call and the file-table queries made, in order. `command` is
`inBuffer[0]` cast to the enumeration `apiDataRequest_t`; the cast keeps the
value of the byte. -/
def api_prepare (c : ApiConsts) (d : Collab) (w : World) (inBuffer outBuffer : Bytes) :
    Bytes × List Query :=
  let command := rd inBuffer 0
  if command > 0x7F then
    if d.flash_is_busy ≠ 0 then (_fill_buffer_get_status c d w outBuffer, [])
    else if command = c.DATAREQUEST_GET_FILE_DETAILS then
      _fill_buffer_get_file_details c d inBuffer outBuffer
    else if command = c.DATAREQUEST_FIND_FILE then _fill_buffer_find_file c d inBuffer outBuffer
    else if command = c.DATAREQUEST_READ_FILE then _fill_buffer_read_file c d inBuffer outBuffer
    else (outBuffer, [])
  else
    if command = c.DATAREQUEST_GET_STATUS then (_fill_buffer_get_status c d w outBuffer, [])
    else if command = c.DATAREQUEST_GET_DISPLAY_1 then (_fill_buffer_get_display c d outBuffer 0, [])
    else if command = c.DATAREQUEST_GET_DISPLAY_2 then (_fill_buffer_get_display c d outBuffer 1, [])
    else if command = c.DATAREQUEST_GET_BOOTLOADER_DETAILS then
      (_fill_buffer_get_bootloader_details c d outBuffer, [])
    else if command = c.DATAREQUEST_GET_CONFIGURATION then
      (_fill_buffer_get_configuration c w outBuffer, [])
    else if command = c.DATAREQUEST_GET_ECHO then (memcpy64 outBuffer inBuffer, [])
    else (outBuffer, [])

/-- The `case` labels of each `switch` of `api.c` are pairwise distinct (C
rejects a `switch` with two equal labels), so the chains of tests above take
the branch the `switch` takes. -/
def ApiConsts.DistinctLabels (c : ApiConsts) : Prop :=
  [c.DATAREQUEST_GET_FILE_DETAILS, c.DATAREQUEST_FIND_FILE, c.DATAREQUEST_READ_FILE].Nodup ∧
  [c.DATAREQUEST_GET_STATUS, c.DATAREQUEST_GET_DISPLAY_1, c.DATAREQUEST_GET_DISPLAY_2,
    c.DATAREQUEST_GET_BOOTLOADER_DETAILS, c.DATAREQUEST_GET_CONFIGURATION,
    c.DATAREQUEST_GET_ECHO].Nodup ∧
  [c.COMMAND_REBOT, c.COMMAND_REBOT_BOOTLOADER_MODE, c.COMMAND_REBOT_NORMAL_MODE,
    c.COMMAND_JUMP_TO_MAIN_PROGRAM, c.COMMAND_ENCODER_CCW, c.COMMAND_ENCODER_CW,
    c.COMMAND_ENCODER_PUSH].Nodup ∧
  [c.COMMAND_FILE_TRUNCATE, c.COMMAND_FILE_DELETE, c.COMMAND_FILE_CREATE, c.COMMAND_FILE_RENAME,
    c.COMMAND_FILE_APPEND, c.COMMAND_FILE_MODIFY].Nodup

instance (c : ApiConsts) : Decidable c.DistinctLabels := by
  unfold ApiConsts.DistinctLabels; infer_instance

/-- A frame (or a stretch of data memory) given by its first bytes, zero
beyond them. -/
def ofList (l : List Nat) : Bytes := fun i => l.getD i 0

/-- A stretch of data memory: the bytes `l` from address `base` on, zero
everywhere else. -/
def ramAt (base : Nat) (l : List Nat) : Bytes := fun a => if a < base then 0 else l.getD (a - base) 0

/-- A device state with all counters and settings zero and an empty call log. -/
def World.zero : World := ⟨⟨0, 0, 0, 0, 0, 0⟩, ⟨0, 0, 0, 0, 0, 0, 0⟩, []⟩

/-- A collaborator state in which every query answers zero and no bytes. -/
def Collab.zero : Collab :=
  ⟨0, 0, fun _ _ => 0, 0, 0, 0, 0, 0, 0, 0, 0, 0, 0, fun _ => 0, fun _ => (0, []), fun _ _ => 0,
    fun _ => 0, fun _ _ _ => (0, []), fun _ => 0⟩

/-! ## Lemmas -/

theorem api_parse_loop_of_passes (c : ApiConsts) (ram inBuffer : Bytes) (len : Nat) :
    ∀ (k fuel idx0 idx : Nat) (w0 w : World),
      api_parse_passes c ram inBuffer len k idx0 w0 = .cont idx w →
      api_parse_loop c ram inBuffer len (k + fuel) idx0 w0 =
        api_parse_loop c ram inBuffer len fuel idx w := by
  intro k
  induction k with
  | zero =>
    intro fuel idx0 idx w0 w h
    simp only [api_parse_passes, Step.cont.injEq] at h
    obtain ⟨h1, h2⟩ := h
    subst h1 h2
    simp
  | succ k ih =>
    intro fuel idx0 idx w0 w h
    have e : k + 1 + fuel = (k + fuel) + 1 := by omega
    rw [e]
    simp only [api_parse_passes] at h
    simp only [api_parse_loop]
    cases hit : api_parse_iteration c ram inBuffer len idx0 w0 with
    | ret w1 => rw [hit] at h; simp at h
    | cont idx1 w1 =>
      rw [hit] at h
      simp only at h ⊢
      exact ih fuel idx1 idx w1 w h

theorem api_parse_iteration_unknown (c : ApiConsts) (ram inBuffer : Bytes) (len idx : Nat)
    (w : World) (hstop : rd inBuffer idx ≠ c.COMMAND_STOP_PARSING)
    (h20 : rd inBuffer idx &&& 0xF0 ≠ 0x20) (h30 : rd inBuffer idx &&& 0xF0 ≠ 0x30)
    (h50 : rd inBuffer idx &&& 0xF0 ≠ 0x50) :
    api_parse_iteration c ram inBuffer len idx w = .ret w := by
  unfold api_parse_iteration
  simp [hstop, h20, h30, h50]

theorem rd_lt (b : Bytes) (i : Nat) : rd b i < 256 :=
  Nat.mod_lt _ (by decide)

theorem wr_same (b : Bytes) (i v : Nat) : wr b i v i = v % 256 := by
  simp [wr]

theorem wr_other (b : Bytes) (i v j : Nat) (h : j ≠ i) : wr b i v j = b j := by
  simp [wr, h]

theorem wrList_below (l : List Nat) : ∀ (b : Bytes) (i j : Nat), j < i → wrList b i l j = b j := by
  induction l with
  | nil => intro b i j _; rfl
  | cons v vs ih =>
    intro b i j h
    simp only [wrList]
    rw [ih (wr b i v) (i + 1) j (by omega), wr_other b i v j (by omega)]

theorem shiftLeft8_or (a b : Nat) (hb : b < 256) : (a <<< 8) ||| b = a * 256 + b := by
  have h := Nat.mul_add_lt_is_or (i := 8) (b := b) (by simpa using hb) a
  rw [Nat.shiftLeft_eq, Nat.mul_comm a (2 ^ 8), ← h]

/-- The shifts and ors that build `start` in `_fill_buffer_read_file` give the
little-endian value of the four bytes. -/
theorem start_little_endian (b1 b2 b3 b4 : Nat) (h1 : b1 < 256) (h2 : b2 < 256) (h3 : b3 < 256)
    (h4 : b4 < 256) :
    ((((((b4 <<< 8) % 2 ^ 32) ||| b3) <<< 8) % 2 ^ 32 ||| b2) <<< 8) % 2 ^ 32 ||| b1 =
      b1 + 256 * b2 + 65536 * b3 + 16777216 * b4 := by
  have e1 : (b4 <<< 8) % 2 ^ 32 = b4 * 256 := by
    rw [Nat.shiftLeft_eq]; exact Nat.mod_eq_of_lt (by omega)
  rw [e1]
  have e2 : ((b4 * 256) ||| b3) = b4 * 256 + b3 := by
    have := shiftLeft8_or b4 b3 h3
    rwa [Nat.shiftLeft_eq] at this
  rw [e2]
  have e3 : ((b4 * 256 + b3) <<< 8) % 2 ^ 32 = (b4 * 256 + b3) * 256 := by
    rw [Nat.shiftLeft_eq]; exact Nat.mod_eq_of_lt (by omega)
  rw [e3]
  have e4 : ((b4 * 256 + b3) * 256 ||| b2) = (b4 * 256 + b3) * 256 + b2 := by
    have := shiftLeft8_or (b4 * 256 + b3) b2 h2
    rwa [Nat.shiftLeft_eq] at this
  rw [e4]
  have e5 : (((b4 * 256 + b3) * 256 + b2) <<< 8) % 2 ^ 32 = ((b4 * 256 + b3) * 256 + b2) * 256 := by
    rw [Nat.shiftLeft_eq]; exact Nat.mod_eq_of_lt (by omega)
  rw [e5]
  have e6 := shiftLeft8_or ((b4 * 256 + b3) * 256 + b2) b1 h1
  rw [Nat.shiftLeft_eq] at e6
  rw [e6]
  omega

/-- One pass of the loop at cursor 1 on the frame `00 54 00 FB FE 4B`, with
the same Append command (`byteCount` 251) in the data memory at `0x54`: the
command is applied and the cursor stays at 1. -/
theorem api_parse_iteration_append_251 (w : World) :
    api_parse_iteration apiH (ramAt 0x54 [0x54, 0x00, 0xFB, 0xFE, 0x4B])
        (ofList [0x00, 0x54, 0x00, 0xFB, 0xFE, 0x4B]) 64 1 w =
      .cont 1 (w.call (.fat_append_to_file 0 251 0x59)) := by
  rfl

theorem api_parse_loop_append_251 :
    ∀ (fuel : Nat) (w : World),
      api_parse_loop apiH (ramAt 0x54 [0x54, 0x00, 0xFB, 0xFE, 0x4B])
        (ofList [0x00, 0x54, 0x00, 0xFB, 0xFE, 0x4B]) 64 fuel 1 w = none := by
  intro fuel
  induction fuel with
  | zero => intro w; rfl
  | succ n ih =>
    intro w
    simp only [api_parse_loop, api_parse_iteration_append_251]
    exact ih _

theorem and_F0_ne_of_eq_FF (b : Nat) (h : b = 0xFF) : b &&& 0xF0 ≠ 0x20 ∧ b &&& 0xF0 ≠ 0x30 := by
  subst h; decide

/-- The encoder-CW opcode, when it is distinct from the five opcodes tested
before it, adds one to `os.encoderCount` (8 bits) and changes nothing else. -/
theorem _parse_command_short_encoder_cw (c : ApiConsts) (w : World) (hd : c.DistinctLabels) :
    _parse_command_short c c.COMMAND_ENCODER_CW w =
      { w with os := { w.os with encoderCount := (w.os.encoderCount + 1) % 256 } } := by
  obtain ⟨-, -, h3, -⟩ := hd
  simp only [List.nodup_cons, List.mem_cons, List.mem_singleton, not_or, List.not_mem_nil,
    not_false_eq_true, List.nodup_nil, and_true] at h3
  obtain ⟨⟨-, -, -, -, e1, -⟩, ⟨-, -, -, e2, -⟩, ⟨-, -, e3, -⟩, ⟨-, e4, -⟩, ⟨e5, -⟩, -⟩ := h3
  unfold _parse_command_short
  rw [if_neg (Ne.symm e1), if_neg (Ne.symm e2), if_neg (Ne.symm e3), if_neg (Ne.symm e4),
    if_neg (Ne.symm e5), if_pos rfl]

theorem and_F0_of_settings_opcode (b : Nat) (h1 : 0x60 ≤ b) (h2 : b ≤ 0x66) :
    b &&& 0xF0 = 0x60 := by
  interval_cases b <;> rfl

/-- A pass of the loop on a byte of high nibble `0x60` returns at once. -/
theorem api_parse_iteration_settings_opcode (c : ApiConsts) (ram inBuffer : Bytes)
    (len idx : Nat) (w : World) (h1 : 0x60 ≤ rd inBuffer idx) (h2 : rd inBuffer idx ≤ 0x66) :
    api_parse_iteration c ram inBuffer len idx w = .ret w := by
  have hn := and_F0_of_settings_opcode (rd inBuffer idx) h1 h2
  unfold api_parse_iteration
  rw [hn]
  split_ifs <;> first | rfl | (exfalso; omega)

/-- Fail-fast of the loop. When the cursor of `api_parse` (frame with byte 0
below `0x80`) stands at `idx` with state `w` after `k` passes from cursor 1,
and the byte there is neither the stop marker nor of high nibble `0x20`,
`0x30` or `0x50`, that pass returns at once without a handler and `api_parse`
returns `w`: nothing at or after that byte is applied. -/
theorem api_parse_returns_at_unknown_nibble (c : ApiConsts) (ram inBuffer : Bytes)
    (len k fuel idx : Nat) (w0 w : World) (h0 : rd inBuffer 0 < 0x80)
    (hreach : api_parse_passes c ram inBuffer len k 1 w0 = .cont idx w)
    (hstop : rd inBuffer idx ≠ c.COMMAND_STOP_PARSING)
    (h20 : rd inBuffer idx &&& 0xF0 ≠ 0x20) (h30 : rd inBuffer idx &&& 0xF0 ≠ 0x30)
    (h50 : rd inBuffer idx &&& 0xF0 ≠ 0x50) :
    api_parse_iteration c ram inBuffer len idx w = .ret w ∧
      api_parse_loop c ram inBuffer len (k + (fuel + 1)) 1 w0 = some (idx, w) ∧
      api_parse c ram inBuffer len (k + (fuel + 1)) w0 = some w := by
  have hit := api_parse_iteration_unknown c ram inBuffer len idx w hstop h20 h30 h50
  have hloop : api_parse_loop c ram inBuffer len (k + (fuel + 1)) 1 w0 = some (idx, w) := by
    rw [api_parse_loop_of_passes c ram inBuffer len k (fuel + 1) 1 idx w0 w hreach]
    simp [api_parse_loop, hit]
  refine ⟨hit, hloop, ?_⟩
  unfold api_parse
  have : ¬ rd inBuffer 0 > 0x7F := by omega
  simp [this, hloop]

/-! ## Theorems -/

/-- C1: `_parse_file_append` does not return `byteCount + 5` when the checksum
does not match. On the slice `54 07 03 00 00 01 02 03` (opcode Append, file 7,
`byteCount` 3, checksum bytes `00 00` instead of `FE 4B`) it returns 15, the
length of Rename, where `byteCount + 5` is 8; no file operation is made. -/
theorem C1_parse_file_append_mismatch_returns_15 :
    _parse_file_append apiH (ofList [0x54, 0x07, 0x03, 0x00, 0x00, 0x01, 0x02, 0x03]) 0
        World.zero = (15, World.zero) ∧
      rd (ofList [0x54, 0x07, 0x03, 0x00, 0x00, 0x01, 0x02, 0x03]) 2 + 5 = 8 := by
  decide

/-- C2: each of the handlers Delete, Create, Rename and Append makes its file
operation (`fat_delete_file`, `fat_create_file`, `fat_rename_file`,
`fat_append_to_file`, logged once, with the arguments of the source) exactly
when `data[0]` is its opcode and both checksum bytes equal its literal; in
every other case the state (counters, settings, call log) is left as it was. -/
theorem C2_file_operation_iff_opcode_and_checksum (c : ApiConsts) (ram : Bytes) (data : Nat)
    (w : World) :
    (_parse_file_delete c ram data w).2 =
        (if rd ram data = c.COMMAND_FILE_DELETE ∧ rd ram (data + 2) = 0x66 ∧
            rd ram (data + 3) = 0xA0
          then w.call (.fat_delete_file (rd ram (data + 1))) else w) ∧
      (_parse_file_create c ram data w).2 =
        (if rd ram data = c.COMMAND_FILE_CREATE ∧ rd ram (data + 12) = 0xBD ∧
            rd ram (data + 13) = 0x4F
          then w.call (.fat_create_file (data + 1) (data + 9) 0) else w) ∧
      (_parse_file_rename c ram data w).2 =
        (if rd ram data = c.COMMAND_FILE_RENAME ∧ rd ram (data + 13) = 0x7E ∧
            rd ram (data + 14) = 0x18
          then w.call (.fat_rename_file (rd ram (data + 1)) (data + 2) (data + 10)) else w) ∧
      (_parse_file_append c ram data w).2 =
        (if rd ram data = c.COMMAND_FILE_APPEND ∧ rd ram (data + 3) = 0xFE ∧
            rd ram (data + 4) = 0x4B
          then w.call (.fat_append_to_file (rd ram (data + 1)) (rd ram (data + 2)) (data + 5))
          else w) := by
  refine ⟨?_, ?_, ?_, ?_⟩
  · unfold _parse_file_delete
    split_ifs <;> first | rfl | (exfalso; tauto)
  · unfold _parse_file_create
    split_ifs <;> first | rfl | (exfalso; tauto)
  · unfold _parse_file_rename
    split_ifs <;> first | rfl | (exfalso; tauto)
  · unfold _parse_file_append
    split_ifs <;> first | rfl | (exfalso; tauto)

/-- C3: on a frame holding a valid Delete, a valid Create and the stop marker,
`api_parse` makes no file operation at all. Frame (received length 64):
`00 | 51 07 66 A0 | 52 "HELLO   " "TXT" BD 4F | FF`, data memory all zero.
At cursor 1 the byte `0x51` has high nibble `0x50`; `_parse_command_long` is
handed that byte as its pointer, reads `data[0]` at address `0x51` of the data
memory (0, no opcode), returns 65, the cursor becomes 66 and the loop ends
there: neither `fat_delete_file` nor `fat_create_file` is called, and the
cursor never stands on the stop marker at index 19. -/
theorem C3_delete_create_stop_not_applied :
    api_parse apiH (fun _ => 0)
        (ofList [0x00, 0x51, 0x07, 0x66, 0xA0, 0x52, 0x48, 0x45, 0x4C, 0x4C, 0x4F, 0x20, 0x20,
          0x20, 0x54, 0x58, 0x54, 0xBD, 0x4F, 0xFF]) 64 64 World.zero = some World.zero ∧
      api_parse_loop apiH (fun _ => 0)
        (ofList [0x00, 0x51, 0x07, 0x66, 0xA0, 0x52, 0x48, 0x45, 0x4C, 0x4C, 0x4F, 0x20, 0x20,
          0x20, 0x54, 0x58, 0x54, 0xBD, 0x4F, 0xFF]) 64 64 1 World.zero =
        some (66, World.zero) := by
  decide

/-- C4: the effects applied before a byte of unknown high nibble are not
those of the commands the frame holds before it. Frame `00 51 07 66 A0 70`
(received length 64): a valid Delete of file 7, then the byte `0x70`. The data
memory holds `51 09 66 A0` at address `0x51`. At cursor 1 the byte `0x51` is
handed to `_parse_command_long` as its pointer, so the command decoded is the
one in the data memory: `fat_delete_file(9)` is called, 4 is returned, and
`api_parse` returns at the byte `0x70` at cursor 5 with file 9 deleted, where
the command located before that byte in the frame deletes file 7 (last
conjunct: the handler on the slice of the frame that starts at index 1). -/
theorem C4_effects_before_unknown_nibble_not_the_frame_commands :
    api_parse_loop apiH (ramAt 0x51 [0x51, 0x09, 0x66, 0xA0])
        (ofList [0x00, 0x51, 0x07, 0x66, 0xA0, 0x70]) 64 64 1 World.zero =
      some (5, World.zero.call (.fat_delete_file 9)) ∧
      rd (ofList [0x00, 0x51, 0x07, 0x66, 0xA0, 0x70]) 5 = 0x70 ∧
      0x70 ≠ apiH.COMMAND_STOP_PARSING ∧
      (0x70 &&& 0xF0 ≠ 0x20 ∧ 0x70 &&& 0xF0 ≠ 0x30 ∧ 0x70 &&& 0xF0 ≠ 0x50) ∧
      _parse_command_long apiH (ofList [0x00, 0x51, 0x07, 0x66, 0xA0, 0x70]) 1 World.zero =
        (4, World.zero.call (.fat_delete_file 7)) := by
  decide

/-- C5: on a frame whose byte 0 is `0x80` or more, `api_parse` returns the
state it was given, for every received length and every content of the rest
of the frame, and it does so without a single pass of its loop (the result
does not depend on `fuel`, zero included), hence without a call of the short
or of the long command handler. -/
theorem C5_extended_request_not_parsed (c : ApiConsts) (ram inBuffer : Bytes)
    (len fuel : Nat) (w : World) (h : 0x80 ≤ rd inBuffer 0) :
    api_parse c ram inBuffer len fuel w = some w := by
  unfold api_parse
  have : rd inBuffer 0 > 0x7F := by omega
  simp [this]

/-- C5 at a concrete frame: `80 24 51 07 66 A0 FF`. -/
theorem C5_extended_request_not_parsed_witness :
    0x80 ≤ rd (ofList [0x80, 0x24, 0x51, 0x07, 0x66, 0xA0, 0xFF]) 0 ∧
      api_parse apiH (fun _ => 0) (ofList [0x80, 0x24, 0x51, 0x07, 0x66, 0xA0, 0xFF]) 64 0
        World.zero = some World.zero :=
  ⟨by decide, C5_extended_request_not_parsed apiH (fun _ => 0)
    (ofList [0x80, 0x24, 0x51, 0x07, 0x66, 0xA0, 0xFF]) 64 0 World.zero (by decide)⟩

/-- C6: `_parse_command_long` can report a consumed length of 0. On the slice
`54 00 FB FE 4B` (opcode Append, file 0, `byteCount` 251, checksum `FE 4B`)
`_parse_file_append` accepts the command and returns `251 + 5` cut to eight
bits, which is 0. -/
theorem C6_parse_command_long_returns_zero :
    (_parse_command_long apiH (ramAt 0x54 [0x54, 0x00, 0xFB, 0xFE, 0x4B]) 0x54 World.zero).1 = 0 ∧
      (_parse_command_long apiH (ramAt 0x54 [0x54, 0x00, 0xFB, 0xFE, 0x4B]) 0x54 World.zero).2 =
        World.zero.call (.fat_append_to_file 0 251 0x59) := by
  decide

/-- C7: the cursor of `api_parse` can regress. Frame `00 54 00 FA FE 4B`
(received length 64), with the same Append command `54 00 FA FE 4B`
(`byteCount` 250) in the data memory at address `0x54`: the pass of the loop
at cursor 1 adds the returned length 255 to the 8-bit cursor, which wraps to
0, below 1. -/
theorem C7_cursor_regresses :
    api_parse_iteration apiH (ramAt 0x54 [0x54, 0x00, 0xFA, 0xFE, 0x4B])
        (ofList [0x00, 0x54, 0x00, 0xFA, 0xFE, 0x4B]) 64 1 World.zero =
      .cont 0 (World.zero.call (.fat_append_to_file 0 250 0x59)) ∧ 0 < 1 := by
  decide

/-- C8: echo. When byte 0 of the inbound frame is the Echo request code (a
code below `0x80`), `api_prepare` leaves in each of the 64 bytes of the
outbound frame the byte of the inbound frame at the same index, whatever the
outbound buffer held before, and makes no file-table query. -/
theorem C8_echo_copies_frame (c : ApiConsts) (d : Collab) (w : World) (inBuffer outBuffer : Bytes)
    (hd : c.DistinctLabels) (hlt : c.DATAREQUEST_GET_ECHO < 0x80)
    (hecho : rd inBuffer 0 = c.DATAREQUEST_GET_ECHO) :
    (∀ i, i < 64 → (api_prepare c d w inBuffer outBuffer).1 i = rd inBuffer i) ∧
      (api_prepare c d w inBuffer outBuffer).2 = [] := by
  obtain ⟨-, h2, -, -⟩ := hd
  simp only [List.nodup_cons, List.mem_cons, List.mem_singleton, not_or, List.not_mem_nil,
    not_false_eq_true, List.nodup_nil, and_true] at h2
  obtain ⟨⟨-, -, -, -, e1⟩, ⟨-, -, -, e2⟩, ⟨-, -, e3⟩, ⟨-, e4⟩, e5⟩ := h2
  have hne : ¬ c.DATAREQUEST_GET_ECHO > 0x7F := by omega
  have hp : api_prepare c d w inBuffer outBuffer = (memcpy64 outBuffer inBuffer, []) := by
    unfold api_prepare
    simp only [hecho, if_true]
    rw [if_neg hne, if_neg (Ne.symm e1), if_neg (Ne.symm e2), if_neg (Ne.symm e3), if_neg (Ne.symm e4),
      if_neg (Ne.symm e5)]
  rw [hp]
  refine ⟨?_, rfl⟩
  intro i hi
  simp [memcpy64, hi]

/-- C8 at a concrete frame: `15 01 02 03` (zero beyond), outbound buffer
holding `AA` everywhere. -/
theorem C8_echo_copies_frame_witness :
    apiH.DistinctLabels ∧ apiH.DATAREQUEST_GET_ECHO < 0x80 ∧
      rd (ofList [0x15, 0x01, 0x02, 0x03]) 0 = apiH.DATAREQUEST_GET_ECHO ∧
      (api_prepare apiH Collab.zero World.zero (ofList [0x15, 0x01, 0x02, 0x03])
        (fun _ => 0xAA)).1 3 = 0x03 :=
  ⟨by decide, by decide, by decide,
    (C8_echo_copies_frame apiH Collab.zero World.zero (ofList [0x15, 0x01, 0x02, 0x03])
      (fun _ => 0xAA) (by decide) (by decide) (by decide)).1 3 (by decide)⟩

/-- C9: precedence of the busy flash. When `flash_is_busy()` is non-zero and
byte 0 of the inbound frame is `0x80` or more, `api_prepare` gives the same
outbound frame, from the same initial buffer and device state, as it gives for
a frame whose byte 0 is the Status request code (a code below `0x80`), and it
makes no file-table query (`fat_get_file_information`, `fat_find_file`,
`fat_get_file_size`, `fat_read_from_file`). -/
theorem C9_busy_extended_request_is_status (c : ApiConsts) (d : Collab) (w : World)
    (inBuffer statusFrame outBuffer : Bytes) (hbusy : d.flash_is_busy ≠ 0)
    (hext : 0x80 ≤ rd inBuffer 0) (hlt : c.DATAREQUEST_GET_STATUS < 0x80)
    (hstatus : rd statusFrame 0 = c.DATAREQUEST_GET_STATUS) :
    (api_prepare c d w inBuffer outBuffer).1 = (api_prepare c d w statusFrame outBuffer).1 ∧
      (api_prepare c d w inBuffer outBuffer).1 = _fill_buffer_get_status c d w outBuffer ∧
      (api_prepare c d w inBuffer outBuffer).2 = [] := by
  have h1 : rd inBuffer 0 > 0x7F := by omega
  have h2 : ¬ rd statusFrame 0 > 0x7F := by omega
  have e1 : api_prepare c d w inBuffer outBuffer = (_fill_buffer_get_status c d w outBuffer, []) := by
    unfold api_prepare
    simp only [h1, if_true]
    rw [if_pos hbusy]
  have e2 : api_prepare c d w statusFrame outBuffer =
      (_fill_buffer_get_status c d w outBuffer, []) := by
    unfold api_prepare
    simp only [h2, if_false]
    rw [if_pos hstatus]
  rw [e1, e2]
  exact ⟨rfl, rfl, rfl⟩

/-- C9 at a concrete input: flash busy, the ReadFile frame `82 01 00 00 00`
against the Status frame `10`, outbound buffer holding `AA` everywhere. -/
theorem C9_busy_extended_request_is_status_witness :
    ({ Collab.zero with flash_is_busy := 1 } : Collab).flash_is_busy ≠ 0 ∧
      0x80 ≤ rd (ofList [0x82, 0x01, 0x00, 0x00, 0x00]) 0 ∧
      apiH.DATAREQUEST_GET_STATUS < 0x80 ∧
      rd (ofList [0x10]) 0 = apiH.DATAREQUEST_GET_STATUS ∧
      (api_prepare apiH { Collab.zero with flash_is_busy := 1 } World.zero
          (ofList [0x82, 0x01, 0x00, 0x00, 0x00]) (fun _ => 0xAA)).1 =
        (api_prepare apiH { Collab.zero with flash_is_busy := 1 } World.zero (ofList [0x10])
          (fun _ => 0xAA)).1 :=
  ⟨by decide, by decide, by decide, by decide,
    (C9_busy_extended_request_is_status apiH { Collab.zero with flash_is_busy := 1 } World.zero
      (ofList [0x82, 0x01, 0x00, 0x00, 0x00]) (ofList [0x10]) (fun _ => 0xAA)
      (by decide) (by decide) (by decide) (by decide)).1⟩

/-- C10: clamp of the ReadFile response. With `start` the little-endian value
of `inBuffer[1..4]` and `file_size` the 32-bit value `fat_get_file_size`
returns, `_fill_buffer_read_file` leaves in `outBuffer[8]` the minimum of
`(file_size - start) mod 2^32` and 54, hands that same number as the byte
count (and `start` as the offset) to `fat_read_from_file`, and the number is
at most 54, also when `start` exceeds `file_size`. -/
theorem C10_read_file_length_clamped (c : ApiConsts) (d : Collab) (inBuffer outBuffer : Bytes) :
    (_fill_buffer_read_file c d inBuffer outBuffer).1 8 =
        min ((d.fat_get_file_size (rd inBuffer 1) % 2 ^ 32 + 2 ^ 32 -
          (rd inBuffer 1 + 256 * rd inBuffer 2 + 65536 * rd inBuffer 3 +
            16777216 * rd inBuffer 4)) % 2 ^ 32) 54 ∧
      (_fill_buffer_read_file c d inBuffer outBuffer).2 =
        [.fat_get_file_size (rd inBuffer 1),
          .fat_read_from_file (rd inBuffer 1)
            (rd inBuffer 1 + 256 * rd inBuffer 2 + 65536 * rd inBuffer 3 +
              16777216 * rd inBuffer 4)
            (min ((d.fat_get_file_size (rd inBuffer 1) % 2 ^ 32 + 2 ^ 32 -
              (rd inBuffer 1 + 256 * rd inBuffer 2 + 65536 * rd inBuffer 3 +
                16777216 * rd inBuffer 4)) % 2 ^ 32) 54)] ∧
      (_fill_buffer_read_file c d inBuffer outBuffer).1 8 ≤ 54 := by
  have hs := start_little_endian (rd inBuffer 1) (rd inBuffer 2) (rd inBuffer 3) (rd inBuffer 4)
    (rd_lt _ _) (rd_lt _ _) (rd_lt _ _) (rd_lt _ _)
  have hmin : ∀ n : Nat, (if n > 54 then 54 else n) = min n 54 := by
    intro n; split_ifs <;> omega
  have h8 : (_fill_buffer_read_file c d inBuffer outBuffer).1 8 =
      min ((d.fat_get_file_size (rd inBuffer 1) % 2 ^ 32 + 2 ^ 32 -
          (rd inBuffer 1 + 256 * rd inBuffer 2 + 65536 * rd inBuffer 3 +
            16777216 * rd inBuffer 4)) % 2 ^ 32) 54 := by
    simp only [_fill_buffer_read_file]
    rw [wr_other _ 9 _ 8 (by decide), wrList_below _ _ 10 8 (by decide), wr_same, hs, hmin]
    exact Nat.mod_eq_of_lt (by omega)
  refine ⟨h8, ?_, ?_⟩
  · simp only [_fill_buffer_read_file]
    rw [hs, hmin]
  · rw [h8]; omega

/-- C11: a record of data length 256 is not truncated to 43 copied bytes: no
payload byte is copied at all. `data_length` is the 16-bit length cast to
`uint8_t`, 0 for 256, so the copy loop does not run: the 43 bytes from
`outBuffer[21]` on keep the `AA` they held, where the payload bytes are `55`,
while `outBuffer[14..15]` report the length 256 (`00 01`). -/
theorem C11_length_256_copies_no_payload :
    (∀ k, k < 43 →
        _fill_buffer_get_bootloader_details apiH
          { Collab.zero with
            bootloader_get_rec_dataLength := 256, bootloader_get_rec_data := fun _ => 0x55 }
          (fun _ => 0xAA) (21 + k) = 0xAA) ∧
      _fill_buffer_get_bootloader_details apiH
          { Collab.zero with
            bootloader_get_rec_dataLength := 256, bootloader_get_rec_data := fun _ => 0x55 }
          (fun _ => 0xAA) 14 = 0x00 ∧
      _fill_buffer_get_bootloader_details apiH
          { Collab.zero with
            bootloader_get_rec_dataLength := 256, bootloader_get_rec_data := fun _ => 0x55 }
          (fun _ => 0xAA) 15 = 0x01 ∧
      min 256 43 = 43 := by
  decide

/-- C12: two responses do not echo the request code that was fulfilled. With
flash not busy, the Configuration request (byte 0 `14`) is answered with the
Status code `10` in byte 0 of the outbound frame, and the ReadFile request
(byte 0 `82`) with the FindFile code `81`; bytes 1 and 2 carry the signature
in both. -/
theorem C12_configuration_and_read_file_echo_another_code :
    (rd (ofList [0x14]) 0 = apiH.DATAREQUEST_GET_CONFIGURATION ∧
        (api_prepare apiH Collab.zero World.zero (ofList [0x14]) (fun _ => 0xAA)).1 0 =
          apiH.DATAREQUEST_GET_STATUS ∧
        apiH.DATAREQUEST_GET_STATUS ≠ apiH.DATAREQUEST_GET_CONFIGURATION) ∧
      (rd (ofList [0x82, 0x01, 0x00, 0x00, 0x00]) 0 = apiH.DATAREQUEST_READ_FILE ∧
        (api_prepare apiH Collab.zero World.zero (ofList [0x82, 0x01, 0x00, 0x00, 0x00])
          (fun _ => 0xAA)).1 0 = apiH.DATAREQUEST_FIND_FILE ∧
        apiH.DATAREQUEST_FIND_FILE ≠ apiH.DATAREQUEST_READ_FILE) ∧
      (api_prepare apiH Collab.zero World.zero (ofList [0x14]) (fun _ => 0xAA)).1 1 = 0x12 ∧
      (api_prepare apiH Collab.zero World.zero (ofList [0x14]) (fun _ => 0xAA)).1 2 = 0x34 := by
  decide

/-- C13: an accepted Append does not always return `byteCount + 5`. On the
slice `54 07 FF FE 4B` (file 7, `byteCount` 255, checksum `FE 4B`)
`_parse_file_append` calls `fat_append_to_file(7, 255, &data[5])` once and
returns `255 + 5` cut to eight bits, which is 4, where `byteCount + 5` is 260. -/
theorem C13_parse_file_append_length_wraps :
    _parse_file_append apiH (ofList [0x54, 0x07, 0xFF, 0xFE, 0x4B]) 0 World.zero =
        (4, World.zero.call (.fat_append_to_file 7 255 5)) ∧
      rd (ofList [0x54, 0x07, 0xFF, 0xFE, 0x4B]) 2 + 5 = 260 := by
  decide

/-- C14: a Truncate opcode at the cursor does not end the parsing. Frame
`00 50 00 00 00 24 FF` (received length 64), data memory holding the bytes
`51 07 66 A0` at address `0x50`. At cursor 1 the byte `0x50` (Truncate) is
handed to `_parse_command_long` as its pointer; `data[0]`, read at address
`0x50`, is the Delete opcode with a valid checksum, so `fat_delete_file(7)`
is called and 4 is returned; the loop goes on at cursor 5, applies the
encoder-CW command there and halts at the stop marker at cursor 6. -/
theorem C14_truncate_opcode_does_not_stop_parsing :
    api_parse_loop apiH (ramAt 0x50 [0x51, 0x07, 0x66, 0xA0])
        (ofList [0x00, 0x50, 0x00, 0x00, 0x00, 0x24, 0xFF]) 64 64 1 World.zero =
      some (6, { os := { World.zero.os with encoderCount := 1 },
                 communicationSettings := World.zero.communicationSettings,
                 calls := [.fat_delete_file 7] }) := by
  decide

/-- C15: an unknown short opcode is skipped. Let `cmd`, the byte at the
cursor, have high nibble `0x20` or `0x30` and be none of the seven opcodes of
`_parse_command_short` (the stop marker being `0xFF`). Then
`_parse_command_short(cmd)` returns the state it was given (counters,
settings and call log unchanged: no EEPROM write, delay or reset), and the
pass of the loop of `api_parse` at that cursor goes on with the cursor
advanced by exactly 1 and the same state. -/
theorem C15_unknown_short_opcode_is_skipped (c : ApiConsts) (ram inBuffer : Bytes)
    (len idx cmd : Nat) (w : World) (hstop : c.COMMAND_STOP_PARSING = 0xFF)
    (hlen : len < 256) (hidx : idx < len) (hcmd : rd inBuffer idx = cmd)
    (hnib : cmd &&& 0xF0 = 0x20 ∨ cmd &&& 0xF0 = 0x30)
    (hunknown : cmd ∉ [c.COMMAND_REBOT, c.COMMAND_REBOT_BOOTLOADER_MODE,
      c.COMMAND_REBOT_NORMAL_MODE, c.COMMAND_JUMP_TO_MAIN_PROGRAM, c.COMMAND_ENCODER_CCW,
      c.COMMAND_ENCODER_CW, c.COMMAND_ENCODER_PUSH]) :
    _parse_command_short c cmd w = w ∧
      api_parse_iteration c ram inBuffer len idx w = .cont (idx + 1) w := by
  simp only [List.mem_cons, List.mem_singleton, not_or, List.not_mem_nil, not_false_eq_true,
    and_true] at hunknown
  obtain ⟨e1, e2, e3, e4, e5, e6, e7⟩ := hunknown
  have hshort : _parse_command_short c cmd w = w := by
    unfold _parse_command_short
    rw [if_neg e1, if_neg e2, if_neg e3, if_neg e4, if_neg e5, if_neg e6, if_neg e7]
  refine ⟨hshort, ?_⟩
  have hns : cmd ≠ c.COMMAND_STOP_PARSING := by
    intro h
    have := and_F0_ne_of_eq_FF cmd (h.trans hstop)
    rcases hnib with h2 | h3
    · exact this.1 h2
    · exact this.2 h3
  have hmod : (idx + 1) % 256 = idx + 1 := Nat.mod_eq_of_lt (by omega)
  unfold api_parse_iteration
  rw [if_pos hidx, hcmd, if_neg hns, hshort, hmod]
  rcases hnib with h2 | h3
  · rw [if_pos h2]
  · rw [if_pos h3]
    split_ifs <;> rfl

/-- C15 at a concrete frame: `00 2F FF`, the byte `2F` being no opcode of
`_parse_command_short`. -/
theorem C15_unknown_short_opcode_is_skipped_witness :
    apiH.COMMAND_STOP_PARSING = 0xFF ∧ rd (ofList [0x00, 0x2F, 0xFF]) 1 = 0x2F ∧
      _parse_command_short apiH 0x2F World.zero = World.zero ∧
      api_parse_iteration apiH (fun _ => 0) (ofList [0x00, 0x2F, 0xFF]) 64 1 World.zero =
        .cont (1 + 1) World.zero :=
  ⟨by decide, by decide,
    C15_unknown_short_opcode_is_skipped apiH (fun _ => 0) (ofList [0x00, 0x2F, 0xFF]) 64 1 0x2F
      World.zero (by decide) (by decide) (by decide) (by decide) (by decide) (by decide)⟩

/-- C16: on a frame that starts `2B 24 24 FF` (encoder-CW opcode `0x24`, stop
marker `0xFF`), with a received length of 4 or more, `api_parse` returns, from
every initial state, the state in which `os.encoderCount` is its initial value
plus 2 modulo 256 and everything else is as before: `os.buttonCount`, the
other fields of `os`, the communication settings, and the call log (no file
operation, EEPROM write, delay or reset). -/
theorem C16_two_encoder_cw_commands (c : ApiConsts) (ram inBuffer : Bytes) (len fuel : Nat)
    (w : World) (hd : c.DistinctLabels) (hcw : c.COMMAND_ENCODER_CW = 0x24)
    (hstop : c.COMMAND_STOP_PARSING = 0xFF) (h0 : rd inBuffer 0 = 0x2B)
    (h1 : rd inBuffer 1 = 0x24) (h2 : rd inBuffer 2 = 0x24) (h3 : rd inBuffer 3 = 0xFF)
    (hlen : 4 ≤ len) :
    api_parse c ram inBuffer len (fuel + 3) w =
      some { w with os := { w.os with encoderCount := (w.os.encoderCount + 2) % 256 } } := by
  have hshort := _parse_command_short_encoder_cw c
  rw [hcw] at hshort
  have it1 : ∀ v : World, api_parse_iteration c ram inBuffer len 1 v =
      .cont 2 { v with os := { v.os with encoderCount := (v.os.encoderCount + 1) % 256 } } := by
    intro v
    unfold api_parse_iteration
    rw [if_pos (by omega), h1, hstop, if_neg (by decide), if_pos (by decide), hshort v hd]
  have it2 : ∀ v : World, api_parse_iteration c ram inBuffer len 2 v =
      .cont 3 { v with os := { v.os with encoderCount := (v.os.encoderCount + 1) % 256 } } := by
    intro v
    unfold api_parse_iteration
    rw [if_pos (by omega), h2, hstop, if_neg (by decide), if_pos (by decide), hshort v hd]
  have it3 : ∀ v : World, api_parse_iteration c ram inBuffer len 3 v = .ret v := by
    intro v
    unfold api_parse_iteration
    rw [if_pos (by omega), h3, hstop, if_pos rfl]
  have hne : ¬ rd inBuffer 0 > 0x7F := by rw [h0]; decide
  have hadd : ((w.os.encoderCount + 1) % 256 + 1) % 256 = (w.os.encoderCount + 2) % 256 := by
    omega
  unfold api_parse
  rw [if_neg hne]
  have e : fuel + 3 = (fuel + 2) + 1 := rfl
  rw [e, api_parse_loop, it1]
  simp only
  have e2 : fuel + 2 = (fuel + 1) + 1 := rfl
  rw [e2, api_parse_loop, it2]
  simp only
  rw [api_parse_loop, it3]
  simp only [Option.map_some', hadd]

/-- C16 at a concrete state: `os.encoderCount` 255, so that the count wraps
to 1. -/
theorem C16_two_encoder_cw_commands_witness :
    apiH.DistinctLabels ∧ apiH.COMMAND_ENCODER_CW = 0x24 ∧ apiH.COMMAND_STOP_PARSING = 0xFF ∧
      api_parse apiH (fun _ => 0) (ofList [0x2B, 0x24, 0x24, 0xFF]) 64 (0 + 3)
          { World.zero with os := { World.zero.os with encoderCount := 255 } } =
        some { World.zero with os := { World.zero.os with encoderCount := 1 } } :=
  ⟨by decide, by decide, by decide,
    C16_two_encoder_cw_commands apiH (fun _ => 0) (ofList [0x2B, 0x24, 0x24, 0xFF]) 64 0
      { World.zero with os := { World.zero.os with encoderCount := 255 } }
      (by decide) (by decide) (by decide) (by decide) (by decide) (by decide) (by decide)
      (by decide)⟩

/-- C17, as stated, fails: a settings opcode at the cursor is not consumed as
a command of length 4. Frame `00 60 01 88 E2 24 FF` (received length 64): at
cursor 1 the byte `0x60` has high nibble `0x60`, `api_parse` returns there
with the cursor still at 1, and the encoder-CW command at index 5 is not
applied (`os.encoderCount` stays 0). -/
theorem C17_settings_opcode_not_consumed :
    api_parse_loop apiH (fun _ => 0) (ofList [0x00, 0x60, 0x01, 0x88, 0xE2, 0x24, 0xFF]) 64 64 1
        World.zero = some (1, World.zero) ∧
      api_parse apiH (fun _ => 0) (ofList [0x00, 0x60, 0x01, 0x88, 0xE2, 0x24, 0xFF]) 64 64
        World.zero = some World.zero ∧
      rd (ofList [0x00, 0x60, 0x01, 0x88, 0xE2, 0x24, 0xFF]) 5 = apiH.COMMAND_ENCODER_CW := by
  decide

/-- C17, amended: a settings opcode (`0x60` to `0x66`) at the cursor is not
dispatched. Let the cursor of `api_parse` (frame with byte 0 below `0x80`)
stand at `idx` with state `w` after `k` passes of the loop, the byte there
being in `0x60..0x66`. Then that pass returns at once, `api_parse` returns
`w` with the cursor still at `idx`: the communication settings (and the rest
of the state) are unchanged and nothing after the opcode is parsed. The seven
handlers `_parse_settings_*` return 4 and leave the state unchanged, but no
path of `api_parse` calls them. -/
theorem C17_settings_opcode_halts_parsing (c : ApiConsts) (ram inBuffer : Bytes)
    (len k fuel idx : Nat) (w0 w : World) (h0 : rd inBuffer 0 < 0x80)
    (hreach : api_parse_passes c ram inBuffer len k 1 w0 = .cont idx w)
    (hlo : 0x60 ≤ rd inBuffer idx) (hhi : rd inBuffer idx ≤ 0x66) :
    api_parse_iteration c ram inBuffer len idx w = .ret w ∧
      api_parse_loop c ram inBuffer len (k + (fuel + 1)) 1 w0 = some (idx, w) ∧
      api_parse c ram inBuffer len (k + (fuel + 1)) w0 = some w ∧
      (∀ data : Nat,
        _parse_settings_spi_mode ram data w = (4, w) ∧
        _parse_settings_spi_frequency ram data w = (4, w) ∧
        _parse_settings_spi_polarity ram data w = (4, w) ∧
        _parse_settings_i2c_mode ram data w = (4, w) ∧
        _parse_settings_i2c_frequency ram data w = (4, w) ∧
        _parse_settings_i2c_slaveModeSlaveAddress ram data w = (4, w) ∧
        _parse_settings_i2c_masterModeSlaveAddress ram data w = (4, w)) := by
  have hit := api_parse_iteration_settings_opcode c ram inBuffer len idx w hlo hhi
  have hloop : api_parse_loop c ram inBuffer len (k + (fuel + 1)) 1 w0 = some (idx, w) := by
    rw [api_parse_loop_of_passes c ram inBuffer len k (fuel + 1) 1 idx w0 w hreach]
    simp [api_parse_loop, hit]
  refine ⟨hit, hloop, ?_, ?_⟩
  · unfold api_parse
    have : ¬ rd inBuffer 0 > 0x7F := by omega
    simp [this, hloop]
  · intro data
    exact ⟨rfl, rfl, rfl, rfl, rfl, rfl, rfl⟩

/-- C17, amended, at a concrete frame: `00 24 63 01 B6 B9 24 FF`, one
encoder-CW command, then the I2C-mode settings opcode `0x63` at cursor 2. -/
theorem C17_settings_opcode_halts_parsing_witness :
    rd (ofList [0x00, 0x24, 0x63, 0x01, 0xB6, 0xB9, 0x24, 0xFF]) 0 < 0x80 ∧
      api_parse_passes apiH (fun _ => 0) (ofList [0x00, 0x24, 0x63, 0x01, 0xB6, 0xB9, 0x24, 0xFF])
        64 1 1 World.zero =
          .cont 2 { World.zero with os := { World.zero.os with encoderCount := 1 } } ∧
      api_parse_loop apiH (fun _ => 0) (ofList [0x00, 0x24, 0x63, 0x01, 0xB6, 0xB9, 0x24, 0xFF])
        64 (1 + (0 + 1)) 1 World.zero =
          some (2, { World.zero with os := { World.zero.os with encoderCount := 1 } }) :=
  ⟨by decide, by decide,
    (C17_settings_opcode_halts_parsing apiH (fun _ => 0)
      (ofList [0x00, 0x24, 0x63, 0x01, 0xB6, 0xB9, 0x24, 0xFF]) 64 1 0 2 World.zero
      { World.zero with os := { World.zero.os with encoderCount := 1 } }
      (by decide) (by decide) (by decide) (by decide)).2.1⟩

/-- C18: the long-command handler is not applied to the slice of the frame at
the cursor. Frame `00 51 07 66 A0 FF` (received length 64), data memory all
zero. The pass of the loop at cursor 1 hands the byte `0x51` to
`_parse_command_long` as its pointer: `data[0]` is read at address `0x51` of
the data memory and is 0, not `inBuffer[1] = 0x51`; 65 is returned, the cursor
becomes 66 and no file operation is made. Applied to the slice of the frame
that starts at index 1, the handler deletes file 7 and returns 4. -/
theorem C18_handler_not_given_the_frame_slice :
    api_parse_iteration apiH (fun _ => 0) (ofList [0x00, 0x51, 0x07, 0x66, 0xA0, 0xFF]) 64 1
        World.zero = .cont 66 World.zero ∧
      rd (fun _ => 0) (rd (ofList [0x00, 0x51, 0x07, 0x66, 0xA0, 0xFF]) 1) = 0 ∧
      rd (ofList [0x00, 0x51, 0x07, 0x66, 0xA0, 0xFF]) 1 = 0x51 ∧
      _parse_command_long apiH (ofList [0x00, 0x51, 0x07, 0x66, 0xA0, 0xFF]) 1 World.zero =
        (4, World.zero.call (.fat_delete_file 7)) := by
  decide

/-- C19: `api_parse` does not terminate on every input. Frame
`00 54 00 FB FE 4B` (received length 64), with the same Append command
(`byteCount` 251, valid checksum) in the data memory at address `0x54`: every
pass of the loop applies the command and adds the returned length 0 to the
cursor, which stays at 1, so no number of passes reaches a `return`. -/
theorem C19_api_parse_loops_forever (fuel : Nat) :
    api_parse apiH (ramAt 0x54 [0x54, 0x00, 0xFB, 0xFE, 0x4B])
      (ofList [0x00, 0x54, 0x00, 0xFB, 0xFE, 0x4B]) 64 fuel World.zero = none := by
  unfold api_parse
  rw [if_neg (by decide), api_parse_loop_append_251]
  rfl

/-- C20: a command whose opcode is the last received byte is decoded from
bytes that are not received bytes of the frame. Two runs with received length
2 and the same two received bytes `00 51` (Delete opcode at index 1): the
frame goes on `07 66 A0` and the data memory holds `51 07 66 A0` at address
`0x51` in the first run, `09 66 A0` and `51 09 66 A0` in the second. File 7 is
deleted in the first run and file 9 in the second, so the file number and the
checksum are read beyond the received bytes. The handler is handed the byte
`0x51` as its pointer and reads the data memory; handed the slice of the frame
at the cursor (last two conjuncts) it reads indices 2 to 4 of the frame, which
are not below the received length either. -/
theorem C20_command_decoded_outside_received_bytes :
    api_parse apiH (ramAt 0x51 [0x51, 0x07, 0x66, 0xA0]) (ofList [0x00, 0x51, 0x07, 0x66, 0xA0]) 2
        64 World.zero = some (World.zero.call (.fat_delete_file 7)) ∧
      api_parse apiH (ramAt 0x51 [0x51, 0x09, 0x66, 0xA0]) (ofList [0x00, 0x51, 0x09, 0x66, 0xA0]) 2
        64 World.zero = some (World.zero.call (.fat_delete_file 9)) ∧
      (∀ i, i < 2 →
        rd (ofList [0x00, 0x51, 0x07, 0x66, 0xA0]) i =
          rd (ofList [0x00, 0x51, 0x09, 0x66, 0xA0]) i) ∧
      _parse_command_long apiH (ofList [0x00, 0x51, 0x07, 0x66, 0xA0]) 1 World.zero =
        (4, World.zero.call (.fat_delete_file 7)) ∧
      _parse_command_long apiH (ofList [0x00, 0x51, 0x09, 0x66, 0xA0]) 1 World.zero =
        (4, World.zero.call (.fat_delete_file 9)) := by
  decide

end Api
